import Mathlib

/-!
Verification of the stock-analysis application core
(`src/app.py`, `src/notify.py`, `src/batch_analysis.py`).

The development shallowly embeds the pieces of the program that the
behavioural claims are about:

* pandas cell values (`PFloat`: a finite rational or NaN; `Option PFloat`
  additionally records a missing column),
* the indicator-annotated dataframe rows consumed by `check_current_signal`,
* the evaluator `check_current_signal` from `app.py` (lines 119-150),
* the crossover predicate of `backtesting.lib` used by the strategy
  classes `SmaCross`, `RsiOscillator`, `MacdTrend`, `BollingerBands`,
* the best-strategy selection loop of `notify.py::analyze_ticker`
  (lines 192-216) and the result collection of `app.py` tab3,
* the signal block of `batch_analysis.py::get_ticker_data` and the
  scan loops of `batch_analysis.py::main` / `notify.py::main`,
* `batch_analysis.py::safe_float`.
-/

namespace StockApp

/-- A value held in one pandas cell: either NaN or a finite rational.
(`pandas_ta` fills indicator columns with NaN during warm-up.) -/
inductive PFloat where
  | nan : PFloat
  | val : ℚ → PFloat
deriving DecidableEq

/-- IEEE-style `<` on cell values: every comparison involving NaN is false,
exactly as in Python. -/
def PFloat.plt : PFloat → PFloat → Bool
  | .val a, .val b => decide (a < b)
  | _, _ => false

/-- IEEE-style `>` on cell values: every comparison involving NaN is false. -/
def PFloat.pgt : PFloat → PFloat → Bool
  | .val a, .val b => decide (b < a)
  | _, _ => false

/-- One row of the indicator-annotated dataframe that `check_current_signal`
reads (`df.iloc[-1]` / `df.iloc[-2]`).  A field value of `none` encodes a
column that is absent from the row; `some .nan` a present cell holding NaN;
`some (.val q)` a present finite value.  Field names follow the pandas
column names `Close`, `SMA_5`, `SMA_25`, `RSI_14`, `MACD_12_26_9`,
`MACDs_12_26_9`, `BBL_20_2.0`, `BBU_20_2.0`. -/
structure Row where
  close : Option PFloat
  sma5  : Option PFloat
  sma25 : Option PFloat
  rsi14 : Option PFloat
  macd  : Option PFloat
  macds : Option PFloat
  bbl   : Option PFloat
  bbu   : Option PFloat
deriving DecidableEq

/-- The helper `g(row, k, d=0)` of `check_current_signal`:
`float(row[k]) if k in row and not pd.isna(row[k]) else d`.
A missing column and a NaN cell both yield the default. -/
def g (v : Option PFloat) (d : ℚ) : ℚ :=
  match v with
  | some (.val q) => q
  | _ => d

/-- `pd.isna`, extended to possibly-missing cells: true when the column is
absent or holds NaN. -/
def isna (v : Option PFloat) : Bool :=
  match v with
  | some (.val _) => false
  | _ => true

/-- Integer rounding performed by Python's `"{:.0f}"` format specifier:
round half to even.  Written over the numerator and denominator so that it
evaluates inside the kernel: with `q = n/d` in lowest terms and `f = ⌊q⌋`,
the fractional part `q - f` compares to `1/2` as `2*(n - f*d)` compares
to `d`. -/
def roundHalfEven (q : ℚ) : ℤ :=
  let n := q.num
  let d : ℤ := (q.den : ℤ)
  let f := n.ediv d
  let r := n - f * d
  if 2 * r < d then f
  else if d < 2 * r then f + 1
  else if f % 2 = 0 then f else f + 1

/-- Python's `f"{x:.0f}"` on a finite value. -/
def fmt0 (q : ℚ) : String := toString (roundHalfEven q)

/-- The strategy dispatch of `app.py::check_current_signal` (the `if`/`elif`
chain on `strategy_name`, lines 126-148), once `close` has been extracted
successfully from the latest row. -/
def check_branches (strategy_name : String) (latest prev : Row) (close : PFloat) :
    String × String :=
  let sma5 := g latest.sma5 0
  let sma25 := g latest.sma25 0
  let p_sma5 := g prev.sma5 0
  let p_sma25 := g prev.sma25 0
  let rsi := g latest.rsi14 50
  let macd := g latest.macd 0
  let sig := g latest.macds 0
  let p_macd := g prev.macd 0
  let p_sig := g prev.macds 0
  let bbl := g latest.bbl 0
  let bbu := g latest.bbu 0
  if strategy_name = "SMAクロス" then
    if p_sma5 < p_sma25 ∧ sma25 < sma5 then ("買い 🚀", "ゴールデンクロス")
    else if p_sma25 < p_sma5 ∧ sma5 < sma25 then ("売り 🔻", "デッドクロス")
    else ("ステイ 🤔", "シグナルなし")
  else if strategy_name = "RSI逆張り" then
    if rsi < 30 then ("買い 🚀", "売られすぎ(RSI" ++ fmt0 rsi ++ ")")
    else if 70 < rsi then ("売り 🔻", "買われすぎ(RSI" ++ fmt0 rsi ++ ")")
    else ("ステイ 🤔", "シグナルなし")
  else if strategy_name = "MACD" then
    if p_macd < p_sig ∧ sig < macd then ("買い 🚀", "MACD上抜け")
    else if p_sig < p_macd ∧ macd < sig then ("売り 🔻", "MACD下抜け")
    else ("ステイ 🤔", "シグナルなし")
  else if strategy_name = "ボリンジャー" then
    if close.plt (.val bbl) then ("買い 🚀", "バンド下限割れ")
    else if close.pgt (.val bbu) then ("売り 🔻", "バンド上限到達")
    else ("ステイ 🤔", "シグナルなし")
  else ("ステイ 🤔", "シグナルなし")

/-- The body of `app.py::check_current_signal` once the latest and previous
rows have been extracted (`latest = df.iloc[-1]`, `prev = df.iloc[-2]`).
`float(latest['Close'])` raises when the `Close` column is absent, which the
enclosing `try` maps to `("判定不能", "データ不足")`; a NaN close converts
without raising and then compares false against the bands. -/
def check_core (strategy_name : String) (latest prev : Row) : String × String :=
  match latest.close with
  | none => ("判定不能", "データ不足")
  | some close => check_branches strategy_name latest prev close

/-- `app.py::check_current_signal` (lines 119-150).  The dataframe is a
chronological list of rows; `df.iloc[-1]` / `df.iloc[-2]` raise `IndexError`
on a frame with fewer than two rows, which the enclosing `try` maps to
`("判定不能", "データ不足")`. -/
def check_current_signal (strategy_name : String) (df : List Row) : String × String :=
  match df.reverse with
  | latest :: prev :: _ => check_core strategy_name latest prev
  | _ => ("判定不能", "データ不足")

/-- On a two-row frame `[prev, latest]` the evaluator runs its main body. -/
theorem check_current_signal_two (name : String) (prev latest : Row) :
    check_current_signal name [prev, latest] = check_core name latest prev := rfl

/-- `backtesting.lib.crossover(series1, series2)`:
`series1[-2] < series2[-2] and series1[-1] > series2[-1]` — strict on both
the previous and the current sample, false whenever a NaN is involved.
Arguments: previous and current sample of `series1`, then previous and
current sample of `series2`. -/
def crossover (prev1 curr1 prev2 curr2 : PFloat) : Bool :=
  prev1.plt prev2 && curr1.pgt curr2

/-- The series `MacdTrend` binds as `self.signal` via `macd.iloc[:, 1]`
(app.py:91, notify.py:65).  `pandas_ta`'s `ta.macd` returns its columns in
the order `[MACD_12_26_9, MACDh_12_26_9, MACDs_12_26_9]`, so column 1 is
the **histogram** `MACDh = MACD − MACDs`, not the signal line; NaN in
either input propagates. -/
def macdHist : PFloat → PFloat → PFloat
  | .val m, .val s => .val (m - s)
  | _, _ => .nan

/-- §4.5's position state, as the spec words it.  `app.py` and `notify.py`
pass no such state to `check_current_signal`. -/
inductive PositionState where
  | Flat : PositionState
  | Long : PositionState
deriving DecidableEq

/-- §4.5's action set, as the spec words it. -/
inductive SpecAction where
  | buy : SpecAction
  | sell : SpecAction
  | hold : SpecAction
deriving DecidableEq

/-- Modelled from the spec: the §4.5 Signal Evaluator contract
`evaluate(strategy, prev, curr, current_position_state)` — Buy only from
`Flat` when `should_enter` holds, Sell only from `Long` when `should_exit`
holds, otherwise Hold.  Used to compare the spec's contract with the code's
`check_current_signal`, which has no position-state parameter. -/
def spec_evaluate (pos : PositionState) (enter exitCond : Bool) : SpecAction :=
  if pos = PositionState.Flat ∧ enter then SpecAction.buy
  else if pos = PositionState.Long ∧ exitCond then SpecAction.sell
  else SpecAction.hold

/-- The Signal Evaluator as actually invoked by the application: the call
sites (`app.py` tab3 line 379, `notify.py::analyze_ticker` line 218) pass a
strategy name and the dataframe, never a position state; the result is the
same whatever the caller's position is. -/
def evaluate (pos : PositionState) (name : String) (df : List Row) : String × String :=
  match pos with
  | _ => check_current_signal name df

/-- One candidate row of the selection loop in `notify.py::analyze_ticker`:
its strategy name, the `Win Rate [%]` statistic of its backtest (`none` if
`Backtest(...).run()` raised and the candidate was skipped; `some .nan` when
the run produced no closed trade), and the `Return [%]` statistic, which is
present in the stats object but never read by the selector. -/
structure Candidate where
  name : String
  winRate : Option PFloat
  totalReturn : Option PFloat
deriving DecidableEq

/-- `notify.py` line 206: `if pd.isna(win_rate): win_rate = 0`. -/
def effWinRate (w : PFloat) : ℚ :=
  match w with
  | .nan => 0
  | .val v => v

/-- The selection loop of `notify.py::analyze_ticker` (lines 192-212):
`best_strat`/`best_win_rate` start at `None`/`-1`; a candidate that raised is
skipped (`except: continue`); otherwise the update condition is the strict
`win_rate > best_win_rate`. -/
def selectLoop : List Candidate → Option String → ℚ → Option String × ℚ
  | [], best, bw => (best, bw)
  | c :: rest, best, bw =>
    match c.winRate with
    | none => selectLoop rest best bw
    | some w =>
      if bw < effWinRate w then selectLoop rest (some c.name) (effWinRate w)
      else selectLoop rest best bw

/-- `notify.py::analyze_ticker` lines 192-216: run the loop from
`best_strat = None`, `best_win_rate = -1`, then
`if not best_strat: best_strat = "SMAクロス"` (the silent default). -/
def selectBest (cands : List Candidate) : String × ℚ :=
  ((selectLoop cands none (-1)).1.getD "SMAクロス", (selectLoop cands none (-1)).2)

/-- `app.py` tab3 lines 370-399: the `results` list keeps one entry per
candidate whose backtest did not raise (`except: pass` drops the others);
`if not results:` shows an error instead of a recommendation. -/
def tab3_results (cands : List Candidate) : List Candidate :=
  cands.filter (fun c => c.winRate.isSome)

/-- The signal block of `batch_analysis.py::get_ticker_data` (lines 80-98):
values already passed through `safe_float`, so each is `none` (missing/NaN)
or a finite rational; signals are computed only when all five are present.
Returns the `signals` list and `signal_color`. -/
def ticker_signals (rsi sma5 sma25 prev_sma5 prev_sma25 : Option ℚ) :
    List String × String :=
  match rsi, sma5, sma25, prev_sma5, prev_sma25 with
  | some r, some s5, some s25, some p5, some p25 =>
    let sc0 : List String × String :=
      if r < 30 then (["🔵 売られすぎ"], "#0000ff")
      else if 70 < r then (["🔴 買われすぎ"], "#ff0000")
      else ([], "#555555")
    if p5 < p25 ∧ s25 < s5 then (sc0.1 ++ ["📈 Gクロス(買)"], "#ff0000")
    else if p25 < p5 ∧ s5 < s25 then (sc0.1 ++ ["📉 Dクロス(売)"], "#0000ff")
    else sc0
  | _, _, _, _, _ => ([], "#555555")

/-- The record `batch_analysis.py::get_ticker_data` returns on success. -/
structure TickerData where
  ticker : String
  close : ℚ
  rsi : ℚ
  sma5 : ℚ
  sma25 : ℚ
  signals : List String
  signal_color : String
deriving DecidableEq

/-- The scan loop of `batch_analysis.py::main` (lines 237-242):
`get_ticker_data` returns `None` on any failure (empty download, fewer than
25 rows, or an exception, which it catches itself); `main` appends only
truthy results.  `fetch` models `get_ticker_data` as a whole. -/
def batch_main_results (fetch : String → Option TickerData) (tickers : List String) :
    List TickerData :=
  tickers.filterMap fetch

/-- The per-ticker observable outcome of `notify.py::analyze_ticker`:
the download returned an empty frame (`return None`), an exception escaped
into the outer handler (error report string), the analysis succeeded and a
report was built, or watching mode found no signal (`return None`). -/
inductive AnalyzeOutcome where
  | emptyData : AnalyzeOutcome
  | analysisError : String → AnalyzeOutcome
  | reportReady : String → AnalyzeOutcome
  | watchNoSignal : AnalyzeOutcome
deriving DecidableEq

/-- The value `notify.py::analyze_ticker` hands back to `main` for one
instrument (lines 172-253): `None` for an empty download or a signal-less
watched instrument, the string `f"【{name}】 エラー: {e}\n"` when an
exception was caught, otherwise the report text. -/
def analyze_result (name : String) : AnalyzeOutcome → Option String
  | .emptyData => none
  | .analysisError m => some ("【" ++ name ++ "】 エラー: " ++ m ++ "\n")
  | .reportReady t => some t
  | .watchNoSignal => none

/-- The scan loop of `notify.py::main` (lines 281-291): every instrument is
analyzed in order; `if rep: reports.append(rep)` keeps the non-`None`
results. -/
def notify_scan (out : String → AnalyzeOutcome) (names : List String) : List String :=
  names.filterMap (fun n => analyze_result n (out n))

/-- A Python value as it may reach `batch_analysis.py::safe_float`:
a finite number (or numeric string), a NaN, an infinity, a value `float()`
rejects, a scalar container whose `.item()` yields the wrapped value
(NumPy 0-d array / one-element Series), or a container whose `.item()`
itself raises (multi-element). -/
inductive PyVal where
  | num : ℚ → PyVal
  | nanV : PyVal
  | infV : PyVal
  | ninfV : PyVal
  | nonNumeric : PyVal
  | scalarBox : PyVal → PyVal
  | badBox : PyVal
deriving DecidableEq

/-- A Python float: finite, NaN, or a signed infinity. -/
inductive ExtFloat where
  | fin : ℚ → ExtFloat
  | nanE : ExtFloat
  | pinfE : ExtFloat
  | ninfE : ExtFloat
deriving DecidableEq

/-- `if hasattr(val, 'item'): val = val.item()` — `.item()` raises on a
multi-element container. -/
def item_unwrap : PyVal → Option PyVal
  | .scalarBox w => some w
  | .badBox => none
  | v => some v

/-- `float(val)`: succeeds on numbers (NaN and infinities included),
raises on anything else. -/
def float_conv : PyVal → Option ExtFloat
  | .num q => some (.fin q)
  | .nanV => some .nanE
  | .infV => some .pinfE
  | .ninfV => some .ninfE
  | _ => none

/-- `batch_analysis.py::safe_float` (lines 17-36): unwrap `.item()`, convert
with `float`, reject NaN and infinities (`math.isnan` / `math.isinf`), and
map every exception to `None`. -/
def safe_float (v : PyVal) : Option ExtFloat :=
  match item_unwrap v with
  | none => none
  | some w =>
    match float_conv w with
    | none => none
    | some f =>
      match f with
      | .fin q => some (.fin q)
      | _ => none

/-- A successful analysis record, used as sample data in concrete scans. -/
def sampleTickerData (t : String) : TickerData :=
  ⟨t, 3000, 50, 2900, 2800, [], "#555555"⟩

/-- A concrete `get_ticker_data` behaviour for a three-instrument scan in
which the middle instrument fails (empty download, fewer than 25 rows, or
an exception — `get_ticker_data` returns `None` for all of them). -/
def demoFetch : String → Option TickerData :=
  fun t => if t = "8306.T" then none else some (sampleTickerData t)

/-! ### Basic lemmas about the evaluator -/

theorem g_val (q d : ℚ) : g (some (.val q)) d = q := rfl

theorem g_isna (v : Option PFloat) (d : ℚ) (h : isna v = true) : g v d = d := by
  cases v with
  | none => rfl
  | some p =>
    cases p with
    | nan => rfl
    | val q => simp [isna] at h

theorem check_core_noclose (name : String) (latest prev : Row)
    (hc : latest.close = none) :
    check_core name latest prev = ("判定不能", "データ不足") := by
  unfold check_core
  rw [hc]

theorem check_core_some (name : String) (latest prev : Row) (c : PFloat)
    (hc : latest.close = some c) :
    check_core name latest prev = check_branches name latest prev c := by
  unfold check_core
  rw [hc]

theorem check_core_sma (latest prev : Row) (c : PFloat) (hc : latest.close = some c) :
    check_core "SMAクロス" latest prev =
      (if g prev.sma5 0 < g prev.sma25 0 ∧ g latest.sma25 0 < g latest.sma5 0 then
        ("買い 🚀", "ゴールデンクロス")
      else if g prev.sma25 0 < g prev.sma5 0 ∧ g latest.sma5 0 < g latest.sma25 0 then
        ("売り 🔻", "デッドクロス")
      else ("ステイ 🤔", "シグナルなし")) := by
  rw [check_core_some _ _ _ _ hc]
  rfl

theorem check_core_rsi (latest prev : Row) (c : PFloat) (hc : latest.close = some c) :
    check_core "RSI逆張り" latest prev =
      (if g latest.rsi14 50 < 30 then
        ("買い 🚀", "売られすぎ(RSI" ++ fmt0 (g latest.rsi14 50) ++ ")")
      else if 70 < g latest.rsi14 50 then
        ("売り 🔻", "買われすぎ(RSI" ++ fmt0 (g latest.rsi14 50) ++ ")")
      else ("ステイ 🤔", "シグナルなし")) := by
  rw [check_core_some _ _ _ _ hc]
  rfl

theorem check_core_macd (latest prev : Row) (c : PFloat) (hc : latest.close = some c) :
    check_core "MACD" latest prev =
      (if g prev.macd 0 < g prev.macds 0 ∧ g latest.macds 0 < g latest.macd 0 then
        ("買い 🚀", "MACD上抜け")
      else if g prev.macds 0 < g prev.macd 0 ∧ g latest.macd 0 < g latest.macds 0 then
        ("売り 🔻", "MACD下抜け")
      else ("ステイ 🤔", "シグナルなし")) := by
  rw [check_core_some _ _ _ _ hc]
  rfl

theorem check_core_boll (latest prev : Row) (c : PFloat) (hc : latest.close = some c) :
    check_core "ボリンジャー" latest prev =
      (if c.plt (.val (g latest.bbl 0)) then ("買い 🚀", "バンド下限割れ")
      else if c.pgt (.val (g latest.bbu 0)) then ("売り 🔻", "バンド上限到達")
      else ("ステイ 🤔", "シグナルなし")) := by
  rw [check_core_some _ _ _ _ hc]
  rfl

theorem check_core_unknown (name : String) (latest prev : Row) (c : PFloat)
    (hc : latest.close = some c) (h1 : name ≠ "SMAクロス") (h2 : name ≠ "RSI逆張り")
    (h3 : name ≠ "MACD") (h4 : name ≠ "ボリンジャー") :
    check_core name latest prev = ("ステイ 🤔", "シグナルなし") := by
  rw [check_core_some _ _ _ _ hc]
  unfold check_branches
  rw [if_neg h1, if_neg h2, if_neg h3, if_neg h4]

theorem check_current_signal_short (name : String) (df : List Row)
    (h : df.length < 2) :
    check_current_signal name df = ("判定不能", "データ不足") := by
  unfold check_current_signal
  rcases hrev : df.reverse with _ | ⟨a, _ | ⟨b, rest⟩⟩
  · rfl
  · rfl
  · exfalso
    have hl := congrArg List.length hrev
    simp [List.length_reverse] at hl
    omega

theorem crossover_val (a b c d : ℚ) :
    crossover (.val a) (.val b) (.val c) (.val d) = true ↔ (a < c ∧ d < b) := by
  simp [crossover, PFloat.plt, PFloat.pgt]

theorem sma_buy_iff (latest prev : Row) (c : PFloat) (hc : latest.close = some c) :
    ((check_core "SMAクロス" latest prev).1 = "買い 🚀") ↔
      (g prev.sma5 0 < g prev.sma25 0 ∧ g latest.sma25 0 < g latest.sma5 0) := by
  rw [check_core_sma latest prev c hc]
  split_ifs with h1 h2
  · exact iff_of_true rfl h1
  · exact iff_of_false (by decide) h1
  · exact iff_of_false (by decide) h1

theorem sma_sell_iff (latest prev : Row) (c : PFloat) (hc : latest.close = some c) :
    ((check_core "SMAクロス" latest prev).1 = "売り 🔻") ↔
      (g prev.sma25 0 < g prev.sma5 0 ∧ g latest.sma5 0 < g latest.sma25 0) := by
  rw [check_core_sma latest prev c hc]
  split_ifs with h1 h2
  · exact iff_of_false (by decide) (fun hs => lt_asymm h1.1 hs.1)
  · exact iff_of_true rfl h2
  · exact iff_of_false (by decide) h2

theorem macd_buy_iff (latest prev : Row) (c : PFloat) (hc : latest.close = some c) :
    ((check_core "MACD" latest prev).1 = "買い 🚀") ↔
      (g prev.macd 0 < g prev.macds 0 ∧ g latest.macds 0 < g latest.macd 0) := by
  rw [check_core_macd latest prev c hc]
  split_ifs with h1 h2
  · exact iff_of_true rfl h1
  · exact iff_of_false (by decide) h1
  · exact iff_of_false (by decide) h1

theorem macd_sell_iff (latest prev : Row) (c : PFloat) (hc : latest.close = some c) :
    ((check_core "MACD" latest prev).1 = "売り 🔻") ↔
      (g prev.macds 0 < g prev.macd 0 ∧ g latest.macd 0 < g latest.macds 0) := by
  rw [check_core_macd latest prev c hc]
  split_ifs with h1 h2
  · exact iff_of_false (by decide) (fun hs => lt_asymm h1.1 hs.1)
  · exact iff_of_true rfl h2
  · exact iff_of_false (by decide) h2

theorem rsi_buy_iff (latest prev : Row) (c : PFloat) (hc : latest.close = some c) :
    ((check_core "RSI逆張り" latest prev).1 = "買い 🚀") ↔ g latest.rsi14 50 < 30 := by
  rw [check_core_rsi latest prev c hc]
  split_ifs with h1 h2
  · exact iff_of_true rfl h1
  · exact iff_of_false (by decide : ("売り 🔻" : String) ≠ "買い 🚀") h1
  · exact iff_of_false (by decide) h1

theorem rsi_sell_iff (latest prev : Row) (c : PFloat) (hc : latest.close = some c) :
    ((check_core "RSI逆張り" latest prev).1 = "売り 🔻") ↔
      (¬ g latest.rsi14 50 < 30 ∧ 70 < g latest.rsi14 50) := by
  rw [check_core_rsi latest prev c hc]
  split_ifs with h1 h2
  · exact iff_of_false (by decide : ("買い 🚀" : String) ≠ "売り 🔻") (fun hs => hs.1 h1)
  · exact iff_of_true rfl ⟨h1, h2⟩
  · exact iff_of_false (by decide) (fun hs => h2 hs.2)

theorem boll_buy_iff (latest prev : Row) (c : PFloat) (hc : latest.close = some c) :
    ((check_core "ボリンジャー" latest prev).1 = "買い 🚀") ↔
      c.plt (.val (g latest.bbl 0)) = true := by
  rw [check_core_boll latest prev c hc]
  split_ifs with h1 h2
  · exact iff_of_true rfl h1
  · exact iff_of_false (by decide) h1
  · exact iff_of_false (by decide) h1

theorem boll_sell_iff (latest prev : Row) (c : PFloat) (hc : latest.close = some c) :
    ((check_core "ボリンジャー" latest prev).1 = "売り 🔻") ↔
      (c.plt (.val (g latest.bbl 0)) = false ∧ c.pgt (.val (g latest.bbu 0)) = true) := by
  rw [check_core_boll latest prev c hc]
  split_ifs with h1 h2
  · exact iff_of_false (by decide) (fun hs => by simp [hs.1] at h1)
  · exact iff_of_true rfl ⟨by simpa using h1, h2⟩
  · exact iff_of_false (by decide) (fun hs => h2 hs.2)

/-! ### Lemmas about the selection loop -/

theorem selectLoop_all_err (l : List Candidate) :
    ∀ (rest : List Candidate) (best : Option String) (bw : ℚ),
      (∀ d ∈ l, d.winRate = none) →
      selectLoop (l ++ rest) best bw = selectLoop rest best bw := by
  induction l with
  | nil => intro rest best bw _; rfl
  | cons c l ih =>
    intro rest best bw h
    have hc : c.winRate = none := h c (by simp)
    simp only [List.cons_append, selectLoop, hc]
    exact ih rest best bw (fun d hd => h d (by simp [hd]))

theorem selectLoop_all_nan (l : List Candidate) :
    ∀ (best : Option String),
      (∀ d ∈ l, d.winRate = none ∨ d.winRate = some PFloat.nan) →
      selectLoop l best 0 = (best, 0) := by
  induction l with
  | nil => intro best _; rfl
  | cons c l ih =>
    intro best h
    rcases h c (by simp) with hc | hc
    · simp only [selectLoop, hc]
      exact ih best (fun d hd => h d (by simp [hd]))
    · simp only [selectLoop, hc, effWinRate]
      rw [if_neg (lt_irrefl 0)]
      exact ih best (fun d hd => h d (by simp [hd]))

theorem tab3_results_all_err (cands : List Candidate)
    (h : ∀ c ∈ cands, c.winRate = none) : tab3_results cands = [] := by
  induction cands with
  | nil => rfl
  | cons c l ih =>
    have hc : c.winRate = none := h c (by simp)
    simp only [tab3_results, List.filter_cons, hc, Option.isSome_none]
    exact ih (fun d hd => h d (by simp [hd]))

theorem selectLoop_return_blind (l : List Candidate) :
    ∀ (tr : Candidate → Option PFloat) (best : Option String) (bw : ℚ),
      selectLoop (l.map (fun c => ⟨c.name, c.winRate, tr c⟩)) best bw =
        selectLoop l best bw := by
  induction l with
  | nil => intro tr best bw; rfl
  | cons c l ih =>
    intro tr best bw
    cases hw : c.winRate with
    | none => simp only [List.map_cons, selectLoop, hw]; exact ih tr best bw
    | some w => simp only [List.map_cons, selectLoop, hw]; split_ifs <;> exact ih tr _ _

/-- Full characterization of the selection loop: either no candidate ever
beats the running maximum (the accumulator is returned and every successful
candidate's effective win rate is at most `bw`), or the result is the first
candidate that attains the final maximum — every earlier successful
candidate is strictly below it, every later one at most equal. -/
theorem selectLoop_char (cands : List Candidate) :
    ∀ (best : Option String) (bw : ℚ),
      (selectLoop cands best bw = (best, bw) ∧
        ∀ c ∈ cands, ∀ w, c.winRate = some w → effWinRate w ≤ bw) ∨
      (∃ pre c post w, cands = pre ++ c :: post ∧ c.winRate = some w ∧
        selectLoop cands best bw = (some c.name, effWinRate w) ∧
        bw < effWinRate w ∧
        (∀ d ∈ pre, ∀ v, d.winRate = some v → effWinRate v < effWinRate w) ∧
        (∀ d ∈ post, ∀ v, d.winRate = some v → effWinRate v ≤ effWinRate w)) := by
  induction cands with
  | nil =>
    intro best bw
    left
    exact ⟨rfl, by simp⟩
  | cons c0 l ih =>
    intro best bw
    cases hw : c0.winRate with
    | none =>
      rcases ih best bw with ⟨heq, hall⟩ | ⟨pre, c, post, w, hsp, hcw, hres, hbw, hpre, hpost⟩
      · left
        refine ⟨by simp only [selectLoop, hw]; exact heq, ?_⟩
        intro d hd v hv
        rcases List.mem_cons.mp hd with rfl | hd
        · rw [hw] at hv; exact absurd hv (by simp)
        · exact hall d hd v hv
      · right
        refine ⟨c0 :: pre, c, post, w, by simp [hsp], hcw,
          by simp only [selectLoop, hw]; exact hres, hbw, ?_, hpost⟩
        intro d hd v hv
        rcases List.mem_cons.mp hd with rfl | hd
        · rw [hw] at hv; exact absurd hv (by simp)
        · exact hpre d hd v hv
    | some w0 =>
      by_cases hlt : bw < effWinRate w0
      · rcases ih (some c0.name) (effWinRate w0) with ⟨heq, hall⟩ |
          ⟨pre, c, post, w, hsp, hcw, hres, hbw, hpre, hpost⟩
        · right
          refine ⟨[], c0, l, w0, rfl, hw,
            by simp only [selectLoop, hw, if_pos hlt]; exact heq, hlt, by simp, hall⟩
        · right
          refine ⟨c0 :: pre, c, post, w, by simp [hsp], hcw,
            by simp only [selectLoop, hw, if_pos hlt]; exact hres,
            lt_trans hlt hbw, ?_, hpost⟩
          intro d hd v hv
          rcases List.mem_cons.mp hd with rfl | hd
          · rw [hw] at hv
            have hv0 : w0 = v := Option.some.inj hv
            rw [← hv0]
            exact hbw
          · exact hpre d hd v hv
      · rcases ih best bw with ⟨heq, hall⟩ |
          ⟨pre, c, post, w, hsp, hcw, hres, hbw, hpre, hpost⟩
        · left
          refine ⟨by simp only [selectLoop, hw, if_neg hlt]; exact heq, ?_⟩
          intro d hd v hv
          rcases List.mem_cons.mp hd with rfl | hd
          · rw [hw] at hv
            have hv0 : w0 = v := Option.some.inj hv
            rw [← hv0]
            exact not_lt.mp hlt
          · exact hall d hd v hv
        · right
          refine ⟨c0 :: pre, c, post, w, by simp [hsp], hcw,
            by simp only [selectLoop, hw, if_neg hlt]; exact hres, hbw, ?_, hpost⟩
          intro d hd v hv
          rcases List.mem_cons.mp hd with rfl | hd
          · rw [hw] at hv
            have hv0 : w0 = v := Option.some.inj hv
            rw [← hv0]
            exact lt_of_le_of_lt (not_lt.mp hlt) hbw
          · exact hpre d hd v hv

/-! ### Claim C1 -/

/-- C1: counterexample.  Two independent failures of the claimed
evaluator/engine coincidence.  RSI: with RSI equal to 25 on both of the
latest two bars the evaluator fires Buy ("売られすぎ"), while the engine's
entry trigger `crossover(rsi, 30)` is false — RSI never crossed above the
lower bound.  MACD: with MACD 1 → 3 and signal line 2 → 2 the evaluator
fires Buy ("MACD上抜け"), but `MacdTrend`'s entry is
`crossover(self.macd, self.signal)` with `self.signal = macd.iloc[:, 1]` —
the histogram column, −1 → 1 here — and `1 < −1` is false, so the engine
does not enter. -/
theorem C1_counterexample :
    (check_current_signal "RSI逆張り"
      [⟨some (.val 1000), some (.val 1), some (.val 2), some (.val 25), some (.val 0),
        some (.val 0), some (.val 900), some (.val 1100)⟩,
       ⟨some (.val 1000), some (.val 1), some (.val 2), some (.val 25), some (.val 0),
        some (.val 0), some (.val 900), some (.val 1100)⟩]).1 = "買い 🚀" ∧
    crossover (.val 25) (.val 25) (.val 30) (.val 30) = false ∧
    (check_current_signal "MACD"
      [⟨some (.val 1000), some .nan, some .nan, some .nan, some (.val 1),
        some (.val 2), some .nan, some .nan⟩,
       ⟨some (.val 1000), some .nan, some .nan, some .nan, some (.val 3),
        some (.val 2), some .nan, some .nan⟩]).1 = "買い 🚀" ∧
    crossover (.val 1) (.val 3) (macdHist (.val 1) (.val 2))
      (macdHist (.val 3) (.val 2)) = false := by
  refine ⟨by decide, by rfl, by decide, ?_⟩
  have h1 : macdHist (PFloat.val 1) (PFloat.val 2) = PFloat.val (-1) := by
    norm_num [macdHist]
  have h2 : macdHist (PFloat.val 3) (PFloat.val 2) = PFloat.val 1 := by
    norm_num [macdHist]
  rw [h1, h2]
  rfl

/-- C1: amended.  On bars whose indicator cells are all present and finite,
the Signal Evaluator's Buy/Sell conditions coincide with the backtest
strategies' entry/exit predicates for the SMA-cross and Bollinger
strategies only.  For RSI the evaluator fires Buy exactly when the latest
RSI is below 30 and Sell exactly when it is above 70 — thresholds — whereas
the engine's predicates are the crossovers of the RSI through those bounds.
For MACD the evaluator applies the MACD-line-vs-signal-line crossover (it
reads the true `MACDs_12_26_9` column), whereas the engine's `MacdTrend`
compares the MACD line against `macd.iloc[:, 1]` — the histogram — so its
entry predicate is `crossover(MACD, MACDh)`, which simplifies to the signal
line crossing above 0 (and its exit to the signal line crossing below 0),
a different rule again. -/
theorem C1_amended (pc cc p5 c5 p25 c25 pr cr pm cm ps cs pl cl pu cu : ℚ) :
    let prev : Row := ⟨some (.val pc), some (.val p5), some (.val p25), some (.val pr),
      some (.val pm), some (.val ps), some (.val pl), some (.val pu)⟩
    let latest : Row := ⟨some (.val cc), some (.val c5), some (.val c25), some (.val cr),
      some (.val cm), some (.val cs), some (.val cl), some (.val cu)⟩
    (((check_current_signal "SMAクロス" [prev, latest]).1 = "買い 🚀") ↔
      crossover (.val p5) (.val c5) (.val p25) (.val c25) = true) ∧
    (((check_current_signal "SMAクロス" [prev, latest]).1 = "売り 🔻") ↔
      crossover (.val p25) (.val c25) (.val p5) (.val c5) = true) ∧
    (((check_current_signal "ボリンジャー" [prev, latest]).1 = "買い 🚀") ↔
      PFloat.plt (.val cc) (.val cl) = true) ∧
    (((check_current_signal "ボリンジャー" [prev, latest]).1 = "売り 🔻") ↔
      (PFloat.plt (.val cc) (.val cl) = false ∧ PFloat.pgt (.val cc) (.val cu) = true)) ∧
    (((check_current_signal "RSI逆張り" [prev, latest]).1 = "買い 🚀") ↔ cr < 30) ∧
    (((check_current_signal "RSI逆張り" [prev, latest]).1 = "売り 🔻") ↔
      (¬ cr < 30 ∧ 70 < cr)) ∧
    (crossover (.val pr) (.val cr) (.val 30) (.val 30) = true ↔ (pr < 30 ∧ 30 < cr)) ∧
    (crossover (.val 70) (.val 70) (.val pr) (.val cr) = true ↔ (70 < pr ∧ cr < 70)) ∧
    (((check_current_signal "MACD" [prev, latest]).1 = "買い 🚀") ↔ (pm < ps ∧ cs < cm)) ∧
    (((check_current_signal "MACD" [prev, latest]).1 = "売り 🔻") ↔ (ps < pm ∧ cm < cs)) ∧
    (crossover (.val pm) (.val cm) (macdHist (.val pm) (.val ps))
        (macdHist (.val cm) (.val cs)) = true ↔ (ps < 0 ∧ 0 < cs)) ∧
    (crossover (macdHist (.val pm) (.val ps)) (macdHist (.val cm) (.val cs))
        (.val pm) (.val cm) = true ↔ (0 < ps ∧ cs < 0)) := by
  intro prev latest
  refine ⟨?_, ?_, ?_, ?_, ?_, ?_, ?_, ?_, ?_, ?_, ?_, ?_⟩
  · rw [check_current_signal_two, sma_buy_iff latest prev (.val cc) rfl, crossover_val]
    exact Iff.rfl
  · rw [check_current_signal_two, sma_sell_iff latest prev (.val cc) rfl, crossover_val]
    exact Iff.rfl
  · rw [check_current_signal_two, boll_buy_iff latest prev (.val cc) rfl]
    exact Iff.rfl
  · rw [check_current_signal_two, boll_sell_iff latest prev (.val cc) rfl]
    exact Iff.rfl
  · rw [check_current_signal_two, rsi_buy_iff latest prev (.val cc) rfl]
    exact Iff.rfl
  · rw [check_current_signal_two, rsi_sell_iff latest prev (.val cc) rfl]
    exact Iff.rfl
  · rw [crossover_val]
  · rw [crossover_val]
  · rw [check_current_signal_two, macd_buy_iff latest prev (.val cc) rfl]
    exact Iff.rfl
  · rw [check_current_signal_two, macd_sell_iff latest prev (.val cc) rfl]
    exact Iff.rfl
  · rw [show macdHist (.val pm) (.val ps) = .val (pm - ps) from rfl,
      show macdHist (.val cm) (.val cs) = .val (cm - cs) from rfl, crossover_val]
    constructor
    · rintro ⟨h1, h2⟩
      exact ⟨by linarith, by linarith⟩
    · rintro ⟨h1, h2⟩
      exact ⟨by linarith, by linarith⟩
  · rw [show macdHist (.val pm) (.val ps) = .val (pm - ps) from rfl,
      show macdHist (.val cm) (.val cs) = .val (cm - cs) from rfl, crossover_val]
    constructor
    · rintro ⟨h1, h2⟩
      exact ⟨by linarith, by linarith⟩
    · rintro ⟨h1, h2⟩
      exact ⟨by linarith, by linarith⟩

/-- C1: witness for the amended theorem, at concrete indicator values. -/
theorem C1_witness :
    (check_current_signal "SMAクロス"
      [⟨some (.val 1000), some (.val 1), some (.val 2), some (.val 50), some (.val 0),
        some (.val 0), some (.val 900), some (.val 1100)⟩,
       ⟨some (.val 1000), some (.val 3), some (.val 2), some (.val 50), some (.val 0),
        some (.val 0), some (.val 900), some (.val 1100)⟩]).1 = "買い 🚀" := by
  have h := C1_amended 1000 1000 1 3 2 2 50 50 0 0 0 0 900 900 1100 1100
  exact h.1.mpr (by rw [crossover_val]; norm_num)

/-! ### Claim C2 -/

/-- C2: counterexample.  On a warm-up frame (all indicator cells NaN) with a
positive close, the Bollinger branch of the evaluator does not hold: both
bands default to `0` through `g`, so `close > bbu` fires and the evaluator
returns Sell, not "no signal". -/
theorem C2_counterexample :
    check_current_signal "ボリンジャー"
      [⟨some (.val 1000), some .nan, some .nan, some .nan, some .nan, some .nan,
        some .nan, some .nan⟩,
       ⟨some (.val 1000), some .nan, some .nan, some .nan, some .nan, some .nan,
        some .nan, some .nan⟩] = ("売り 🔻", "バンド上限到達") := by
  decide

/-- C2: amended.  In the backtest engine every predicate is false on NaN
warm-up samples (NaN comparisons are false), and the evaluator returns Hold
on warm-up bars for the SMA-cross, RSI and MACD strategies (defaults 0 and
50 fire no branch); `batch_analysis.py` emits no signal when any of its five
indicator values is unavailable.  For the Bollinger strategy, however,
missing bands default to 0, so any bar with a positive close yields Sell
during warm-up. -/
theorem C2_amended (prev latest : Row) (c : ℚ) (hc : latest.close = some (.val c)) :
    (∀ a b d : PFloat, crossover .nan a b d = false ∧ crossover a b .nan d = false ∧
      crossover a .nan b d = false ∧ crossover a b d .nan = false ∧
      PFloat.plt a .nan = false ∧ PFloat.pgt a .nan = false) ∧
    (isna prev.sma5 = true → isna prev.sma25 = true → isna latest.sma5 = true →
      isna latest.sma25 = true →
      check_current_signal "SMAクロス" [prev, latest] = ("ステイ 🤔", "シグナルなし")) ∧
    (isna latest.rsi14 = true →
      check_current_signal "RSI逆張り" [prev, latest] = ("ステイ 🤔", "シグナルなし")) ∧
    (isna prev.macd = true → isna prev.macds = true → isna latest.macd = true →
      isna latest.macds = true →
      check_current_signal "MACD" [prev, latest] = ("ステイ 🤔", "シグナルなし")) ∧
    (isna latest.bbl = true → isna latest.bbu = true → 0 < c →
      check_current_signal "ボリンジャー" [prev, latest] = ("売り 🔻", "バンド上限到達")) ∧
    (∀ s5 s25 q5 q25 : Option ℚ, ticker_signals none s5 s25 q5 q25 = ([], "#555555")) ∧
    (∀ r s25 q5 q25 : Option ℚ, ticker_signals r none s25 q5 q25 = ([], "#555555")) ∧
    (∀ r s5 q5 q25 : Option ℚ, ticker_signals r s5 none q5 q25 = ([], "#555555")) ∧
    (∀ r s5 s25 q25 : Option ℚ, ticker_signals r s5 s25 none q25 = ([], "#555555")) ∧
    (∀ r s5 s25 q5 : Option ℚ, ticker_signals r s5 s25 q5 none = ([], "#555555")) := by
  refine ⟨?_, ?_, ?_, ?_, ?_, ?_, ?_, ?_, ?_, ?_⟩
  · intro a b d
    refine ⟨rfl, ?_, ?_, ?_, ?_, ?_⟩
    · cases a <;> rfl
    · simp [crossover, PFloat.pgt]
    · cases b <;> simp [crossover, PFloat.pgt]
    · cases a <;> rfl
    · cases a <;> rfl
  · intro h1 h2 h3 h4
    rw [check_current_signal_two, check_core_sma latest prev (.val c) hc,
      g_isna _ _ h1, g_isna _ _ h2, g_isna _ _ h3, g_isna _ _ h4]
    norm_num
  · intro h1
    rw [check_current_signal_two, check_core_rsi latest prev (.val c) hc, g_isna _ _ h1]
    norm_num
  · intro h1 h2 h3 h4
    rw [check_current_signal_two, check_core_macd latest prev (.val c) hc,
      g_isna _ _ h1, g_isna _ _ h2, g_isna _ _ h3, g_isna _ _ h4]
    norm_num
  · intro h1 h2 hcpos
    rw [check_current_signal_two, check_core_boll latest prev (.val c) hc,
      g_isna _ _ h1, g_isna _ _ h2]
    have hlt : PFloat.plt (.val c) (.val 0) = false := by
      simp [PFloat.plt]
      exact le_of_lt hcpos
    have hgt : PFloat.pgt (.val c) (.val 0) = true := by
      simp [PFloat.pgt]
      exact hcpos
    rw [hlt, hgt]
    rfl
  · intro s5 s25 q5 q25; rfl
  · intro r s25 q5 q25; cases r <;> rfl
  · intro r s5 q5 q25; cases r <;> cases s5 <;> rfl
  · intro r s5 s25 q25; cases r <;> cases s5 <;> cases s25 <;> rfl
  · intro r s5 s25 q5; cases r <;> cases s5 <;> cases s25 <;> cases q5 <;> rfl

/-- C2: witness for the amended theorem, on a concrete warm-up frame. -/
theorem C2_witness :
    check_current_signal "SMAクロス"
      [⟨some (.val 1000), some .nan, some .nan, some .nan, some .nan, some .nan,
        some .nan, some .nan⟩,
       ⟨some (.val 1000), some .nan, some .nan, some .nan, some .nan, some .nan,
        some .nan, some .nan⟩] = ("ステイ 🤔", "シグナルなし") := by
  have h := C2_amended
    ⟨some (.val 1000), some .nan, some .nan, some .nan, some .nan, some .nan,
      some .nan, some .nan⟩
    ⟨some (.val 1000), some .nan, some .nan, some .nan, some .nan, some .nan,
      some .nan, some .nan⟩ 1000 rfl
  exact h.2.1 rfl rfl rfl rfl

/-! ### Claim C3 -/

/-- C3: counterexample.  Two candidates with the same win rate, the second
with the strictly higher total return: the selector keeps the first (the
update condition is the strict `win_rate > best_win_rate` and the total
return is never consulted), so the claimed tie-break by `total_return_pct`
does not happen. -/
theorem C3_counterexample :
    selectBest [⟨"SMAクロス", some (.val 50), some (.val 10)⟩,
                ⟨"RSI逆張り", some (.val 50), some (.val 20)⟩] = ("SMAクロス", 50) ∧
    ("SMAクロス" : String) ≠ "RSI逆張り" ∧ (10 : ℚ) < 20 := by
  refine ⟨by rfl, by decide, by norm_num⟩

/-- C3: amended.  The selector is a pure function of the candidates' names
and win rates; the `Return [%]` statistic is never consulted.  Either no
candidate survives (all skipped, or effective win rates ≤ the initial −1)
and the default `("SMAクロス", -1)` is returned, or the winner is the
*first* candidate attaining the maximal effective win rate (NaN counted
as 0): every earlier successful candidate is strictly below it, every later
one at most equal — so ties are broken by candidate order, not by
`total_return_pct`.  Determinism holds because the selection is a function
of the candidate list. -/
theorem C3_amended (cands : List Candidate) :
    (∀ (tr : Candidate → Option PFloat),
      selectBest (cands.map (fun c => ⟨c.name, c.winRate, tr c⟩)) = selectBest cands) ∧
    (((∀ c ∈ cands, ∀ w, c.winRate = some w → effWinRate w ≤ -1) ∧
        selectBest cands = ("SMAクロス", -1)) ∨
      (∃ pre c post w, cands = pre ++ c :: post ∧ c.winRate = some w ∧
        selectBest cands = (c.name, effWinRate w) ∧
        (∀ d ∈ pre, ∀ v, d.winRate = some v → effWinRate v < effWinRate w) ∧
        (∀ d ∈ post, ∀ v, d.winRate = some v → effWinRate v ≤ effWinRate w))) := by
  constructor
  · intro tr
    unfold selectBest
    rw [selectLoop_return_blind cands tr none (-1)]
  · rcases selectLoop_char cands none (-1) with ⟨heq, hall⟩ |
      ⟨pre, c, post, w, hsp, hcw, hres, _, hpre, hpost⟩
    · left
      refine ⟨hall, ?_⟩
      unfold selectBest
      rw [heq]
      rfl
    · right
      refine ⟨pre, c, post, w, hsp, hcw, ?_, hpre, hpost⟩
      unfold selectBest
      rw [hres]
      rfl

/-- C3: witness for the amended theorem — the return-blindness conjunct at a
concrete candidate list. -/
theorem C3_witness :
    selectBest (([⟨"SMAクロス", some (.val 50), some (.val 10)⟩,
                  ⟨"RSI逆張り", some (.val 50), some (.val 20)⟩] : List Candidate).map
        (fun c => (⟨c.name, c.winRate, none⟩ : Candidate))) =
      selectBest [⟨"SMAクロス", some (.val 50), some (.val 10)⟩,
                  ⟨"RSI逆張り", some (.val 50), some (.val 20)⟩] :=
  (C3_amended _).1 (fun _ => none)

/-! ### Claim C4 -/

/-- C4: counterexample.  `check_current_signal` takes no position-state
argument, so its verdict cannot depend on one: on bars where only the exit
condition holds (RSI 75 > 70) it returns Sell, whereas the spec contract
evaluated from `Flat` with the same predicates returns Hold — the code can
recommend Sell from a flat position (e.g. for a watch-list instrument). -/
theorem C4_counterexample :
    check_current_signal "RSI逆張り"
      [⟨some (.val 1000), some .nan, some .nan, some (.val 80), some .nan, some .nan,
        some .nan, some .nan⟩,
       ⟨some (.val 1000), some .nan, some .nan, some (.val 75), some .nan, some .nan,
        some .nan, some .nan⟩] = ("売り 🔻", "買われすぎ(RSI75)") ∧
    spec_evaluate PositionState.Flat false true = SpecAction.hold := by
  constructor
  · decide
  · rfl

/-- C4: amended.  The evaluator's action is a function of the strategy name
and the two bars only: for every position state the result is the one
`check_current_signal` computes, and for the RSI strategy Sell is returned
exactly when the latest RSI exceeds 70 (and Buy exactly when it is below
30), independently of the caller's position — in particular Sell is
recommended from `Flat` as well. -/
theorem C4_amended (pos : PositionState) (pc cc pr cr : ℚ) :
    let prev : Row := ⟨some (.val pc), some .nan, some .nan, some (.val pr), some .nan,
      some .nan, some .nan, some .nan⟩
    let latest : Row := ⟨some (.val cc), some .nan, some .nan, some (.val cr), some .nan,
      some .nan, some .nan, some .nan⟩
    (∀ (name : String) (df : List Row), evaluate pos name df = check_current_signal name df) ∧
    (((evaluate pos "RSI逆張り" [prev, latest]).1 = "売り 🔻") ↔ (¬ cr < 30 ∧ 70 < cr)) ∧
    (((evaluate pos "RSI逆張り" [prev, latest]).1 = "買い 🚀") ↔ cr < 30) := by
  intro prev latest
  refine ⟨fun name df => by cases pos <;> rfl, ?_, ?_⟩
  · have h : evaluate pos "RSI逆張り" [prev, latest] = check_core "RSI逆張り" latest prev := by
      cases pos <;> rfl
    rw [h, rsi_sell_iff latest prev (.val cc) rfl]
    exact Iff.rfl
  · have h : evaluate pos "RSI逆張り" [prev, latest] = check_core "RSI逆張り" latest prev := by
      cases pos <;> rfl
    rw [h, rsi_buy_iff latest prev (.val cc) rfl]
    exact Iff.rfl

/-- C4: witness for the amended theorem — from a `Flat` position the
evaluator still answers Sell when RSI is 75. -/
theorem C4_witness :
    (evaluate PositionState.Flat "RSI逆張り"
      [⟨some (.val 1000), some .nan, some .nan, some (.val 80), some .nan, some .nan,
        some .nan, some .nan⟩,
       ⟨some (.val 1000), some .nan, some .nan, some (.val 75), some .nan, some .nan,
        some .nan, some .nan⟩]).1 = "売り 🔻" := by
  have h := C4_amended PositionState.Flat 1000 1000 80 75
  exact h.2.1.mpr ⟨by norm_num, by norm_num⟩

/-! ### Claim C5 -/

/-- C5: counterexample.  A candidate list in which no strategy produced any
closed trade (win rates NaN) yields exactly the same selector output as one
in which the first strategy genuinely traded with a 0 % win rate — the
returned `(name, best_win_rate)` pair does not let the caller distinguish
the no-trade fallback from a real winner. -/
theorem C5_counterexample :
    selectBest [⟨"SMAクロス", some PFloat.nan, none⟩,
                ⟨"RSI逆張り", some PFloat.nan, none⟩] =
      selectBest [⟨"SMAクロス", some (PFloat.val 0), none⟩,
                  ⟨"RSI逆張り", some (PFloat.val 0), none⟩] ∧
    selectBest [⟨"SMAクロス", some PFloat.nan, none⟩,
                ⟨"RSI逆張り", some PFloat.nan, none⟩] = ("SMAクロス", 0) ∧
    (some PFloat.nan : Option PFloat) ≠ some (PFloat.val 0) := by
  refine ⟨by rfl, by rfl, by decide⟩

/-- C5: amended.  When no candidate produces any closed trade (every
backtest either raised or reported a NaN win rate), the selector does
return the first non-raising candidate with `best_win_rate = 0` — NaN is
coerced to 0 and beats the initial −1 — but nothing in the returned value
marks it as a fallback, so it is indistinguishable from a genuine winner
whose win rate is 0. -/
theorem C5_amended (pre : List Candidate) (c : Candidate) (post : List Candidate)
    (hpre : ∀ d ∈ pre, d.winRate = none) (hc : c.winRate = some PFloat.nan)
    (hpost : ∀ d ∈ post, d.winRate = none ∨ d.winRate = some PFloat.nan) :
    selectBest (pre ++ c :: post) = (c.name, 0) := by
  unfold selectBest
  rw [selectLoop_all_err pre (c :: post) none (-1) hpre]
  simp only [selectLoop, hc, effWinRate]
  rw [if_pos (by norm_num : (-1 : ℚ) < 0)]
  rw [selectLoop_all_nan post (some c.name) hpost]
  rfl

/-- C5: witness for the amended theorem, at a concrete no-trade list. -/
theorem C5_witness :
    selectBest [⟨"SMAクロス", some PFloat.nan, none⟩,
                ⟨"RSI逆張り", some PFloat.nan, none⟩] = ("SMAクロス", 0) :=
  C5_amended [] ⟨"SMAクロス", some PFloat.nan, none⟩ [⟨"RSI逆張り", some PFloat.nan, none⟩]
    (by simp) rfl (by simp)

/-! ### Claim C6 -/

/-- C6: counterexample.  When every candidate's backtest raised and was
skipped, `notify.py` raises no `NoViableStrategyError`: the loop leaves
`best_strat = None` and line 215 silently substitutes the default
`"SMAクロス"` (with `best_win_rate` still −1), and the instrument goes on
to produce a report rather than being omitted. -/
theorem C6_counterexample :
    selectBest [⟨"SMAクロス", none, none⟩, ⟨"RSI逆張り", none, none⟩,
                ⟨"MACD", none, none⟩, ⟨"ボリンジャー", none, none⟩] = ("SMAクロス", -1) ∧
    tab3_results [⟨"SMAクロス", none, none⟩, ⟨"RSI逆張り", none, none⟩,
                  ⟨"MACD", none, none⟩, ⟨"ボリンジャー", none, none⟩] = [] := by
  refine ⟨by rfl, by rfl⟩

/-- C6: amended.  If every candidate raised, `notify.py`'s selector returns
the silent default `("SMAクロス", -1)` — no error is raised and the
instrument is not omitted — while `app.py` tab3 ends with an empty results
list (`results = []`) and shows an error message instead of a
recommendation. -/
theorem C6_amended (cands : List Candidate) (h : ∀ c ∈ cands, c.winRate = none) :
    selectBest cands = ("SMAクロス", -1) ∧ tab3_results cands = [] := by
  constructor
  · have h0 := selectLoop_all_err cands [] none (-1) h
    rw [List.append_nil] at h0
    unfold selectBest
    rw [h0]
    rfl
  · exact tab3_results_all_err cands h

/-- C6: witness for the amended theorem, at a concrete all-raised list. -/
theorem C6_witness :
    selectBest [⟨"SMAクロス", none, none⟩, ⟨"MACD", none, none⟩] = ("SMAクロス", -1) ∧
    tab3_results [⟨"SMAクロス", none, none⟩, ⟨"MACD", none, none⟩] = [] :=
  C6_amended [⟨"SMAクロス", none, none⟩, ⟨"MACD", none, none⟩] (by simp)

/-! ### Claim C7 -/

/-- C7: counterexample.  A bar where the previous fast SMA is strictly below
the slow one and the current values are exactly equal: the claim's
convention ("strict on the previous sample, non-strict on the current one")
would make this a crossover, but neither the evaluator nor the engine
detects one — both use strict inequality on the current sample too. -/
theorem C7_counterexample :
    check_current_signal "SMAクロス"
      [⟨some (.val 100), some (.val 1), some (.val 2), some .nan, some .nan, some .nan,
        some .nan, some .nan⟩,
       ⟨some (.val 100), some (.val 5), some (.val 5), some .nan, some .nan, some .nan,
        some .nan, some .nan⟩] = ("ステイ 🤔", "シグナルなし") ∧
    crossover (.val 1) (.val 5) (.val 2) (.val 5) = false ∧
    ((1 : ℚ) < 2 ∧ (5 : ℚ) ≤ 5) := by
  refine ⟨by decide, by rfl, by norm_num⟩

/-- C7: amended.  Every crossover trigger is detected with strict
inequality on **both** samples — previous strictly below and current
strictly above — in the engine's `crossover` and in the evaluator's SMA and
MACD branches alike; a bar on which the current values are exactly equal is
not a crossover. -/
theorem C7_amended (pc cc p5 c5 p25 c25 pm cm ps cs : ℚ) :
    let prev : Row := ⟨some (.val pc), some (.val p5), some (.val p25), some .nan,
      some (.val pm), some (.val ps), some .nan, some .nan⟩
    let latest : Row := ⟨some (.val cc), some (.val c5), some (.val c25), some .nan,
      some (.val cm), some (.val cs), some .nan, some .nan⟩
    (crossover (.val p5) (.val c5) (.val p25) (.val c25) = true ↔ (p5 < p25 ∧ c25 < c5)) ∧
    (((check_current_signal "SMAクロス" [prev, latest]).1 = "買い 🚀") ↔
      (p5 < p25 ∧ c25 < c5)) ∧
    (c5 = c25 → crossover (.val p5) (.val c5) (.val p25) (.val c25) = false ∧
      (check_current_signal "SMAクロス" [prev, latest]).1 ≠ "買い 🚀") ∧
    (crossover (.val pm) (.val cm) (.val ps) (.val cs) = true ↔ (pm < ps ∧ cs < cm)) ∧
    (((check_current_signal "MACD" [prev, latest]).1 = "買い 🚀") ↔ (pm < ps ∧ cs < cm)) ∧
    (cm = cs → crossover (.val pm) (.val cm) (.val ps) (.val cs) = false ∧
      (check_current_signal "MACD" [prev, latest]).1 ≠ "買い 🚀") := by
  intro prev latest
  have hsma : ((check_current_signal "SMAクロス" [prev, latest]).1 = "買い 🚀") ↔
      (p5 < p25 ∧ c25 < c5) := by
    rw [check_current_signal_two, sma_buy_iff latest prev (.val cc) rfl]
    exact Iff.rfl
  have hmacd : ((check_current_signal "MACD" [prev, latest]).1 = "買い 🚀") ↔
      (pm < ps ∧ cs < cm) := by
    rw [check_current_signal_two, macd_buy_iff latest prev (.val cc) rfl]
    exact Iff.rfl
  refine ⟨crossover_val _ _ _ _, hsma, ?_, crossover_val _ _ _ _, hmacd, ?_⟩
  · intro hEq
    constructor
    · rw [← Bool.not_eq_true, crossover_val]
      intro hx
      rw [hEq] at hx
      exact lt_irrefl c25 hx.2
    · intro hx
      have := hsma.mp hx
      rw [hEq] at this
      exact lt_irrefl c25 this.2
  · intro hEq
    constructor
    · rw [← Bool.not_eq_true, crossover_val]
      intro hx
      rw [hEq] at hx
      exact lt_irrefl cs hx.2
    · intro hx
      have := hmacd.mp hx
      rw [hEq] at this
      exact lt_irrefl cs this.2

/-- C7: witness for the amended theorem — at the concrete equal-current bar
the engine detects no crossover. -/
theorem C7_witness : crossover (.val 1) (.val 5) (.val 2) (.val 5) = false := by
  have h := C7_amended 100 100 1 5 2 5 0 0 0 0
  exact (h.2.2.1 rfl).1

/-! ### Claim C8 -/

/-- C8: counterexample.  In the `batch_analysis.py` scan a failing middle
instrument does not abort the scan — but nothing about it is collected
either: the results list holds only the two successful instruments and no
entry mentions the failed ticker, so the failure is not "reported alongside
the successful results". -/
theorem C8_counterexample :
    batch_main_results demoFetch ["7203.T", "8306.T", "9984.T"] =
      [sampleTickerData "7203.T", sampleTickerData "9984.T"] ∧
    (batch_main_results demoFetch ["7203.T", "8306.T", "9984.T"]).map TickerData.ticker =
      ["7203.T", "9984.T"] := by
  refine ⟨by rfl, by rfl⟩

/-- C8: amended.  A per-instrument failure never aborts a scan: the
instruments before and after it are processed exactly as if it were absent.
But only an in-analysis exception in `notify.py` is collected as an error
line in the report; an empty download (and every failure in
`batch_analysis.py`, which returns `None`) is silently dropped from the
results. -/
theorem C8_amended :
    (∀ (fetch : String → Option TickerData) (xs ys : List String) (t : String),
      fetch t = none →
      batch_main_results fetch (xs ++ t :: ys) =
        batch_main_results fetch xs ++ batch_main_results fetch ys) ∧
    (∀ (out : String → AnalyzeOutcome) (xs ys : List String) (t m : String),
      out t = AnalyzeOutcome.analysisError m →
      notify_scan out (xs ++ t :: ys) =
        notify_scan out xs ++ ("【" ++ t ++ "】 エラー: " ++ m ++ "\n") :: notify_scan out ys) ∧
    (∀ (out : String → AnalyzeOutcome) (xs ys : List String) (t : String),
      out t = AnalyzeOutcome.emptyData →
      notify_scan out (xs ++ t :: ys) = notify_scan out xs ++ notify_scan out ys) := by
  refine ⟨?_, ?_, ?_⟩
  · intro fetch xs ys t h
    unfold batch_main_results
    rw [List.filterMap_append, List.filterMap_cons, h]
  · intro out xs ys t m h
    unfold notify_scan
    rw [List.filterMap_append, List.filterMap_cons, h]
    rfl
  · intro out xs ys t h
    unfold notify_scan
    rw [List.filterMap_append, List.filterMap_cons, h]
    rfl

/-- C8: witness for the amended theorem, at the concrete three-instrument
scan with the failing middle instrument. -/
theorem C8_witness :
    batch_main_results demoFetch (["7203.T"] ++ "8306.T" :: ["9984.T"]) =
      batch_main_results demoFetch ["7203.T"] ++ batch_main_results demoFetch ["9984.T"] :=
  C8_amended.1 demoFetch ["7203.T"] ["9984.T"] "8306.T" rfl

/-! ### Claim C9 -/

/-- C9: the evaluator is total and fails closed.  On a frame with fewer than
two rows (`df.iloc[-2]` raises) the result is `("判定不能", "データ不足")`,
as it is when the `Close` column is absent from the latest row; a strategy
name outside the four known ones falls through every branch to the Hold
result `("ステイ 🤔", "シグナルなし")`; and `"判定不能"` is none of the
three documented actions. -/
theorem C9_total (name : String) (df : List Row) :
    (df.length < 2 → check_current_signal name df = ("判定不能", "データ不足")) ∧
    (∀ latest prev rest, df.reverse = latest :: prev :: rest → latest.close = none →
      check_current_signal name df = ("判定不能", "データ不足")) ∧
    (name ≠ "SMAクロス" → name ≠ "RSI逆張り" → name ≠ "MACD" → name ≠ "ボリンジャー" →
      ∀ latest prev rest c, df.reverse = latest :: prev :: rest → latest.close = some c →
      check_current_signal name df = ("ステイ 🤔", "シグナルなし")) ∧
    (("判定不能" : String) ≠ "買い 🚀" ∧ ("判定不能" : String) ≠ "売り 🔻" ∧
      ("判定不能" : String) ≠ "ステイ 🤔") := by
  refine ⟨check_current_signal_short name df, ?_, ?_, by decide, by decide, by decide⟩
  · intro latest prev rest hrev hc
    unfold check_current_signal
    rw [hrev]
    exact check_core_noclose name latest prev hc
  · intro h1 h2 h3 h4 latest prev rest c hrev hc
    unfold check_current_signal
    rw [hrev]
    exact check_core_unknown name latest prev c hc h1 h2 h3 h4

/-- C9: witness — the empty frame and an unknown strategy name at concrete
inputs. -/
theorem C9_witness :
    check_current_signal "SMAクロス" [] = ("判定不能", "データ不足") ∧
    check_current_signal "未知の戦略"
      [⟨some (.val 100), none, none, none, none, none, none, none⟩,
       ⟨some (.val 100), none, none, none, none, none, none, none⟩] =
      ("ステイ 🤔", "シグナルなし") := by
  constructor
  · exact (C9_total "SMAクロス" []).1 (by norm_num)
  · exact (C9_total "未知の戦略"
      [⟨some (.val 100), none, none, none, none, none, none, none⟩,
       ⟨some (.val 100), none, none, none, none, none, none, none⟩]).2.2.1
      (by decide) (by decide) (by decide) (by decide)
      ⟨some (.val 100), none, none, none, none, none, none, none⟩
      ⟨some (.val 100), none, none, none, none, none, none, none⟩
      [] (.val 100) rfl rfl

/-! ### Claim C10 -/

/-- C10: `safe_float` never raises (it is a total function), maps every
finite numeric input to its value, and maps NaN, the two infinities,
unconvertible values and failing `.item()` containers to `None`; whenever it
returns a value, that value is a finite float — never NaN or an infinity. -/
theorem C10_safe_float (v : PyVal) :
    (∀ r, safe_float v = some r → ∃ q, r = ExtFloat.fin q) ∧
    (∀ q : ℚ, safe_float (PyVal.num q) = some (ExtFloat.fin q)) ∧
    safe_float PyVal.nanV = none ∧ safe_float PyVal.infV = none ∧
    safe_float PyVal.ninfV = none ∧ safe_float PyVal.nonNumeric = none ∧
    safe_float PyVal.badBox = none ∧
    (∀ q : ℚ, safe_float (PyVal.scalarBox (PyVal.num q)) = some (ExtFloat.fin q)) := by
    refine ⟨?_, fun q => rfl, rfl, rfl, rfl, rfl, rfl, fun q => rfl⟩
    intro r h
    cases v with
    | num q => exact ⟨q, (Option.some.inj h).symm⟩
    | nanV => exact absurd h (by simp [safe_float, item_unwrap, float_conv])
    | infV => exact absurd h (by simp [safe_float, item_unwrap, float_conv])
    | ninfV => exact absurd h (by simp [safe_float, item_unwrap, float_conv])
    | nonNumeric => exact absurd h (by simp [safe_float, item_unwrap, float_conv])
    | badBox => exact absurd h (by simp [safe_float, item_unwrap, float_conv])
    | scalarBox w =>
      cases w with
      | num q => exact ⟨q, (Option.some.inj h).symm⟩
      | nanV => exact absurd h (by simp [safe_float, item_unwrap, float_conv])
      | infV => exact absurd h (by simp [safe_float, item_unwrap, float_conv])
      | ninfV => exact absurd h (by simp [safe_float, item_unwrap, float_conv])
      | nonNumeric => exact absurd h (by simp [safe_float, item_unwrap, float_conv])
      | badBox => exact absurd h (by simp [safe_float, item_unwrap, float_conv])
      | scalarBox u => exact absurd h (by simp [safe_float, item_unwrap, float_conv])

/-- C10: witness — `safe_float` on the finite input 3 returns a finite
value. -/
theorem C10_witness : ∃ q : ℚ, ExtFloat.fin 3 = ExtFloat.fin q :=
  (C10_safe_float (PyVal.num 3)).1 (ExtFloat.fin 3) rfl

end StockApp
